import Mathlib

/-!
Verification development for the uStreamer HTTP streaming engine
(src/src/http.c). The C data structures and the handlers relevant to the
exposed snapshot, the MJPEG per-client writer, the client registry and the
refresh tick are embedded as executable Lean definitions; machine buffers
become lists of byte values (`List Nat`), and the byte-level output of the
handlers is computed exactly as the C `evbuffer` calls produce it.
-/

namespace UStreamer

/-- A picture buffer, as in `struct picture_t` used through http.c:
`data` is the byte buffer (its length is the allocated capacity),
`size` is the number of valid bytes, `allocated` the capacity. -/
structure picture_t where
  data : List Nat
  size : Nat
  allocated : Nat
deriving Repr, DecidableEq

/-- Producer-side stream slot (`struct stream_t`): latest picture, its
dimensions, and the dirty flag. The mutex is modelled separately as an
event trace (see `refresh_trace`). -/
structure stream_t where
  picture : picture_t
  width : Nat
  height : Nat
  updated : Bool
deriving Repr, DecidableEq

/-- Server-side exposed snapshot (`struct exposed_t` in http.h, used in
http.c): a picture, dimensions, and the online flag. -/
structure exposed_t where
  picture : picture_t
  width : Nat
  height : Nat
  online : Bool
deriving Repr, DecidableEq

/-- One streaming client (`struct stream_client_t`): its identity (the C
code identifies a client by its heap pointer; we use a numeric handle) and
the `need_initial` flag. -/
structure stream_client_t where
  id : Nat
  need_initial : Bool
deriving Repr, DecidableEq

/-- The C memcpy of n bytes on byte buffers: the first `n` bytes come from
`src`, the rest of `dst` is unchanged. -/
def memcpy (dst src : List Nat) (n : Nat) : List Nat :=
  src.take n ++ dst.drop n

/-- The A_REALLOC macro growing a buffer to capacity `n`: the old contents are
kept, the fresh bytes are unspecified (modelled as zero). -/
def realloc_grow (d : List Nat) (n : Nat) : List Nat :=
  d ++ List.replicate (n - d.length) 0

/-- Modelled from the spec: the embedded blank asset of `data/blank.h`
(`BLANK_JPG_DATA`, a compile-time constant JPEG byte sequence) is not under
src/; we model it as a minimal nonempty JPEG byte sequence (SOI and EOI
markers), per the spec's "compile-time constant JPEG (bytes, width,
height, size)". -/
def BLANK_JPG_DATA : List Nat := [0xFF, 0xD8, 0xFF, 0xD9]

/-- Modelled from the spec: `BLANK_JPG_SIZE` of data/blank.h, the byte
count of the blank JPEG. -/
def BLANK_JPG_SIZE : Nat := BLANK_JPG_DATA.length

/-- Modelled from the spec: `BLANK_JPG_WIDTH` of data/blank.h. -/
def BLANK_JPG_WIDTH : Nat := 640

/-- Modelled from the spec: `BLANK_JPG_HEIGHT` of data/blank.h. -/
def BLANK_JPG_HEIGHT : Nat := 480

/-- Embeds `_expose_new_picture` (http.c lines 366-382): grow the exposed buffer
to the stream's capacity if smaller, memcpy `stream.picture.size` bytes,
copy size, width, height, and set `online = true`. -/
def _expose_new_picture (s : stream_t) (e : exposed_t) : exposed_t :=
  let pic0 := e.picture
  let pic1 : picture_t :=
    if pic0.allocated < s.picture.allocated then
      { pic0 with
          data := realloc_grow pic0.data s.picture.allocated
          allocated := s.picture.allocated }
    else pic0
  { picture :=
      { data := memcpy pic1.data s.picture.data s.picture.size
        size := s.picture.size
        allocated := pic1.allocated }
    width := s.width
    height := s.height
    online := true }

/-- Embeds `_expose_blank_picture` (http.c lines 384-402): when `online` or the
size is zero, grow the buffer to the blank size if needed, memcpy the
blank JPEG, set the blank dimensions and `online = false`; otherwise do
nothing. -/
def _expose_blank_picture (e : exposed_t) : exposed_t :=
  if e.online || e.picture.size == 0 then
    let pic0 := e.picture
    let pic1 : picture_t :=
      if pic0.allocated < BLANK_JPG_SIZE then
        { pic0 with
            data := realloc_grow pic0.data BLANK_JPG_SIZE
            allocated := BLANK_JPG_SIZE }
      else pic0
    { picture :=
        { data := memcpy pic1.data BLANK_JPG_DATA BLANK_JPG_SIZE
          size := BLANK_JPG_SIZE
          allocated := pic1.allocated }
      width := BLANK_JPG_WIDTH
      height := BLANK_JPG_HEIGHT
      online := false }
  else e

/-- The exposed snapshot right after `A_CALLOC(exposed, 1)` in
`http_server_init` (http.c line 65): all fields zeroed. -/
def exposed_zero : exposed_t :=
  { picture := { data := [], size := 0, allocated := 0 }
    width := 0, height := 0, online := false }

/-- The exposed snapshot after `http_server_init` (http.c lines 60-94):
the zeroed snapshot passed through `_expose_blank_picture` (line 79). -/
def http_server_init_exposed : exposed_t :=
  _expose_blank_picture exposed_zero

/-- The refresh-tick state transition, `_http_exposed_refresh`
(http.c lines 337-364), on the producer slot and the exposed snapshot.
Returns the new stream slot, the new exposed snapshot, and whether a
fanout (`_http_queue_send_stream`) was requested. `UNLOCK_STREAM` clears
`updated` in both branches before unlocking. -/
def refresh_tick (s : stream_t) (e : exposed_t) :
    stream_t × exposed_t × Bool :=
  if s.updated then
    if 0 < s.picture.size then
      ({ s with updated := false }, _expose_new_picture s e, true)
    else
      ({ s with updated := false }, _expose_blank_picture e, true)
  else if !e.online then
    (s, e, true)
  else
    (s, e, false)

/-! ### Client registry (intrusive doubly-linked list in http.c) -/

/-- The append of a new client in `_http_callback_stream` (http.c lines
231-239): if the registry is empty the client becomes the head, otherwise
the code walks `last->next` to the tail and links the client there. -/
def _stream_clients_append : List stream_client_t → stream_client_t →
    List stream_client_t
  | [], c => [c]
  | x :: rest, c => x :: _stream_clients_append rest c

/-- The number of `last = last->next` steps the append loop of
`_http_callback_stream` (http.c line 236) executes on a registry:
zero on an empty or singleton registry, one per further client. -/
def _stream_clients_append_scan_steps : List stream_client_t → Nat
  | [] => 0
  | [_] => 0
  | _ :: rest => 1 + _stream_clients_append_scan_steps rest

/-- The unlink of `_http_callback_stream_error` (http.c lines 311-318):
remove the node with the given handle from the list, splicing its
neighbours together (`prev->next = next; next->prev = prev`). -/
def _stream_clients_detach : List stream_client_t → Nat →
    List stream_client_t
  | [], _ => []
  | x :: rest, cid => if x.id = cid then rest else x :: _stream_clients_detach rest cid

/-- The event-loop private server state touched by the stream callbacks
(`struct http_server_runtime_t`): the exposed snapshot and the client
registry. -/
structure http_server_runtime_t where
  exposed : exposed_t
  stream_clients : List stream_client_t
deriving Repr, DecidableEq

/-- Embeds `_http_callback_stream_error` (http.c lines 302-320): free the
connection and unlink exactly this client from the registry; nothing else
in the runtime state is touched. -/
def _http_callback_stream_error (run : http_server_runtime_t) (cid : Nat) :
    http_server_runtime_t :=
  { run with stream_clients := _stream_clients_detach run.stream_clients cid }

/-! ### The /stream dispatcher -/

/-- The request method, as delivered by `evhttp_request_get_command`;
only GET and HEAD are allowed by `http_server_init` (http.c line 84). -/
inductive evhttp_cmd_type where
  | EVHTTP_REQ_GET
  | EVHTTP_REQ_HEAD
deriving Repr, DecidableEq

/-- Observable outcome of one `_http_callback_stream` dispatch:
the immediate reply sent by `PROCESS_HEAD_REQUEST` if any (status code
and body bytes), the registry afterwards, whether `bufferevent_setcb` was
invoked, and whether the request was freed. -/
structure stream_dispatch_t where
  head_reply : Option (Nat × List Nat)
  stream_clients : List stream_client_t
  callbacks_installed : Bool
  request_freed : Bool
deriving Repr, DecidableEq

/-- Embeds `_http_callback_stream` (http.c lines 210-247): `PROCESS_HEAD_REQUEST`
answers HEAD with `200 OK` and a NULL body and returns; otherwise, when
the connection is non-NULL a fresh client with `need_initial = true` is
appended to the registry and its error callback installed, and when the
connection is NULL the request is freed. -/
def _http_callback_stream (cmd : evhttp_cmd_type) (conn_present : Bool)
    (clients : List stream_client_t) (new_id : Nat) : stream_dispatch_t :=
  if cmd = evhttp_cmd_type.EVHTTP_REQ_HEAD then
    { head_reply := some (200, [])
      stream_clients := clients
      callbacks_installed := false
      request_freed := false }
  else if conn_present then
    let client : stream_client_t := { id := new_id, need_initial := true }
    { head_reply := none
      stream_clients := _stream_clients_append clients client
      callbacks_installed := true
      request_freed := false }
  else
    { head_reply := none
      stream_clients := clients
      callbacks_installed := false
      request_freed := true }

/-! ### Byte-level output of the handlers -/

/-- The bytes of an ASCII string as the handlers emit them. -/
def str_bytes (s : String) : List Nat := s.data.map Char.toNat

/-- The multipart boundary token (http.c line 251). -/
def BOUNDARY : String := "boundarydonotcross"

/-- CRLF (http.c line 252). -/
def RN : String := "\r\n"

/-- Zero-padding of the microsecond field, the printf %06u. -/
def pad6 (n : Nat) : String :=
  String.mk (List.replicate (6 - (toString n).length) '0') ++ toString n

/-- The `%u.%06u` timestamp text shared by the snapshot handler and the
stream writer. -/
def x_timestamp_str (sec usec : Nat) : String :=
  toString sec ++ "." ++ pad6 usec

/-- The initial HTTP/1.0 response emitted once per stream client
(http.c lines 263-272), byte for byte. -/
def stream_preamble : String :=
  "HTTP/1.0 200 OK" ++ RN ++
  "Access-Control-Allow-Origin: *" ++ RN ++
  "Cache-Control: no-store, no-cache, must-revalidate, pre-check=0, post-check=0, max-age=0" ++ RN ++
  "Pragma: no-cache" ++ RN ++
  "Expires: Mon, 3 Jan 2000 12:34:56 GMT" ++ RN ++
  "Content-Type: multipart/x-mixed-replace;boundary=" ++ BOUNDARY ++ RN ++
  RN ++
  "--" ++ BOUNDARY ++ RN

/-- The header block of one multipart part (http.c lines 277-285), with
`n` the value printed by `%lu` for the picture size. -/
def stream_part_header (n sec usec : Nat) : String :=
  "Content-Type: image/jpeg" ++ RN ++
  "Content-Length: " ++ toString n ++ RN ++
  "X-Timestamp: " ++ x_timestamp_str sec usec ++ RN ++
  RN

/-- The trailing CRLF and boundary closing one part (http.c line 290). -/
def stream_part_tail : String := RN ++ "--" ++ BOUNDARY ++ RN

/-- One refresh tick as seen by a stream client's write callback: the
exposed snapshot it reads and the wall clock sampled at write formation. -/
structure tick_input_t where
  exposed : exposed_t
  sec : Nat
  usec : Nat
deriving Repr, DecidableEq

/-- The bytes of the single multipart part a write appends
(http.c lines 277-290): the header block with `Content-Length` printed
from `picture.size`, then `picture.size` bytes of the picture data, then
the closing boundary. -/
def part_bytes (t : tick_input_t) : List Nat :=
  str_bytes (stream_part_header t.exposed.picture.size t.sec t.usec) ++
  t.exposed.picture.data.take t.exposed.picture.size ++
  str_bytes stream_part_tail

/-- Embeds `_http_callback_stream_write` (http.c lines 254-297): when
`need_initial` the preamble is written first and the flag cleared; then
one multipart part for the current exposed picture is written. Returns
the client afterwards and the bytes pushed to the transport. -/
def _http_callback_stream_write (c : stream_client_t) (t : tick_input_t) :
    stream_client_t × List Nat :=
  let pre := if c.need_initial then str_bytes stream_preamble else []
  let c' := if c.need_initial then { c with need_initial := false } else c
  (c', pre ++ part_bytes t)

/-- A client's write callback run over a sequence of refresh ticks,
accumulating everything written to its transport. -/
def run_stream_writes (c : stream_client_t) :
    List tick_input_t → stream_client_t × List Nat
  | [] => (c, [])
  | t :: ts =>
    let step := _http_callback_stream_write c t
    let rest := run_stream_writes step.1 ts
    (rest.1, step.2 ++ rest.2)

/-- The concatenation of the multipart parts for a tick sequence. -/
def parts_bytes (ts : List tick_input_t) : List Nat :=
  (ts.map part_bytes).flatten

/-! ### The /snapshot handler -/

/-- An HTTP reply as `evhttp_send_reply` receives it: the status code,
the output headers in insertion order, and the body bytes. -/
structure http_response_t where
  code : Nat
  headers : List (String × String)
  body : List Nat
deriving Repr, DecidableEq

/-- Embeds `_http_callback_snapshot` for a GET (http.c lines 179-206): the body
is `picture.size` bytes of the exposed picture, and the headers are added
with the literal keys of lines 197-202 — note the key of line 197 is the
string `"Access-Control-Allow-Origin:"`, trailing colon included. -/
def _http_callback_snapshot (e : exposed_t) (sec usec : Nat) :
    http_response_t :=
  { code := 200
    headers :=
      [ ("Access-Control-Allow-Origin:", "*")
      , ("Cache-Control", "no-store, no-cache, must-revalidate, pre-check=0, post-check=0, max-age=0")
      , ("Pragma", "no-cache")
      , ("Expires", "Mon, 3 Jan 2000 12:34:56 GMT")
      , ("X-Timestamp", x_timestamp_str sec usec)
      , ("Content-Type", "image/jpeg") ]
    body := e.picture.data.take e.picture.size }

/-! ### Lock discipline of the refresh tick -/

/-- The accesses `_http_exposed_refresh` performs, in program order:
mutex operations, reads and writes of the shared stream slot, the frame
copy, and the lock-free tail work. -/
inductive lock_ev where
  | lock
  | unlock
  | read_updated
  | write_updated
  | read_stream_picture
  | copy_frame
  | blank_exposed
  | fanout
deriving Repr, DecidableEq

/-- Whether an event touches a field of the shared stream slot
(`picture`, `width`, `height`, `updated`). -/
def is_stream_access : lock_ev → Bool
  | lock_ev.read_updated => true
  | lock_ev.write_updated => true
  | lock_ev.read_stream_picture => true
  | lock_ev.copy_frame => true
  | _ => false

/-- The access trace of one `_http_exposed_refresh` tick (http.c lines
337-364), in the order the statements execute: line 346 reads
`stream->updated` (before `LOCK_STREAM`); under the lock, line 349 reads
`stream->picture.size` and `_expose_new_picture` performs the frame copy;
`UNLOCK_STREAM` writes `updated = false` and unlocks; `_expose_blank_picture`
and `_http_queue_send_stream` run after the unlock. -/
def refresh_trace (s : stream_t) (e : exposed_t) : List lock_ev :=
  lock_ev.read_updated ::
  (if s.updated then
    lock_ev.lock :: lock_ev.read_stream_picture ::
    (if 0 < s.picture.size then
      [lock_ev.copy_frame, lock_ev.write_updated, lock_ev.unlock, lock_ev.fanout]
    else
      [lock_ev.write_updated, lock_ev.unlock, lock_ev.blank_exposed, lock_ev.fanout])
  else if !e.online then
    [lock_ev.fanout]
  else
    [])

/-- Checks a trace starting at lock depth `d`: every stream-slot access
must happen at positive depth, and no unlock may occur at depth zero. -/
def accesses_locked : List lock_ev → Nat → Bool
  | [], _ => true
  | lock_ev.lock :: r, d => accesses_locked r (d + 1)
  | lock_ev.unlock :: r, d => decide (0 < d) && accesses_locked r (d - 1)
  | ev :: r, d => (!is_stream_access ev || decide (0 < d)) && accesses_locked r d

/-- The lock depth after running a whole trace from depth `d`. -/
def final_depth : List lock_ev → Nat → Nat
  | [], d => d
  | lock_ev.lock :: r, d => final_depth r (d + 1)
  | lock_ev.unlock :: r, d => final_depth r (d - 1)
  | _ :: r, d => final_depth r d

/-- How many frame copies a trace performs. -/
def count_copies (tr : List lock_ev) : Nat :=
  tr.count lock_ev.copy_frame

/-! ### Basic buffer lemmas -/

lemma memcpy_take (dst src : List Nat) (n : Nat) (h : n ≤ src.length) :
    (memcpy dst src n).take n = src.take n := by
  unfold memcpy
  exact List.take_left' (by simp [Nat.min_eq_left h])

/-! ### The blank invariant (claim C4) -/

/-- The exposed picture's visible contents equal the embedded blank JPEG. -/
def exposed_is_blank (e : exposed_t) : Prop :=
  e.picture.size = BLANK_JPG_SIZE ∧
  e.picture.data.take BLANK_JPG_SIZE = BLANK_JPG_DATA ∧
  e.width = BLANK_JPG_WIDTH ∧
  e.height = BLANK_JPG_HEIGHT

/-- The claimed state invariant: offline implies blank contents. -/
def exposed_blank_inv (e : exposed_t) : Prop :=
  e.online = false → exposed_is_blank e

instance (e : exposed_t) : Decidable (exposed_is_blank e) := by
  unfold exposed_is_blank
  infer_instance

instance (e : exposed_t) : Decidable (exposed_blank_inv e) := by
  unfold exposed_blank_inv
  infer_instance

lemma blankify_eq_of_cond_false (e : exposed_t)
    (h : (e.online || e.picture.size == 0) = false) :
    _expose_blank_picture e = e := by
  simp only [_expose_blank_picture, h, Bool.false_eq_true, if_false]

lemma blankify_fields_of_cond_true (e : exposed_t)
    (h : (e.online || e.picture.size == 0) = true) :
    (_expose_blank_picture e).online = false ∧
    (_expose_blank_picture e).picture.size = BLANK_JPG_SIZE ∧
    (_expose_blank_picture e).picture.data.take BLANK_JPG_SIZE = BLANK_JPG_DATA ∧
    (_expose_blank_picture e).width = BLANK_JPG_WIDTH ∧
    (_expose_blank_picture e).height = BLANK_JPG_HEIGHT := by
  simp only [_expose_blank_picture, h, if_true]
  refine ⟨trivial, trivial, ?_, trivial, trivial⟩
  rw [memcpy_take _ BLANK_JPG_DATA BLANK_JPG_SIZE (by decide)]
  decide

lemma blankify_preserves_inv (e : exposed_t) (h : exposed_blank_inv e) :
    exposed_blank_inv (_expose_blank_picture e) := by
  by_cases hc : (e.online || e.picture.size == 0) = true
  · intro _
    obtain ⟨_, h2, h3, h4, h5⟩ := blankify_fields_of_cond_true e hc
    exact ⟨h2, h3, h4, h5⟩
  · rw [blankify_eq_of_cond_false e (by simpa using hc)]
    exact h

lemma new_picture_preserves_inv (s : stream_t) (e : exposed_t) :
    exposed_blank_inv (_expose_new_picture s e) := by
  intro h
  simp only [_expose_new_picture] at h
  cases h

/-- C4: whenever `exposed.online = false` the exposed picture's contents
(size, first `size` bytes, width, height) equal the embedded blank JPEG;
the invariant holds after `http_server_init` and is preserved by
`_expose_new_picture`, `_expose_blank_picture`, and every refresh tick. -/
theorem exposed_blank_invariant :
    exposed_blank_inv http_server_init_exposed
    ∧ (∀ s e, exposed_blank_inv e → exposed_blank_inv (_expose_new_picture s e))
    ∧ (∀ e, exposed_blank_inv e → exposed_blank_inv (_expose_blank_picture e))
    ∧ (∀ s e, exposed_blank_inv e → exposed_blank_inv (refresh_tick s e).2.1) := by
  refine ⟨by decide, fun s e _ => new_picture_preserves_inv s e,
    blankify_preserves_inv, fun s e h => ?_⟩
  unfold refresh_tick
  split
  · split
    · exact new_picture_preserves_inv s e
    · exact blankify_preserves_inv e h
  · split
    · exact h
    · exact h

/-- Closed instance of C4: the invariant, discharged at the
post-init snapshot pushed through one more blankify. -/
theorem exposed_blank_invariant_witness :
    exposed_blank_inv (_expose_blank_picture http_server_init_exposed) :=
  exposed_blank_invariant.2.2.1 http_server_init_exposed (by decide)

/-! ### Idempotence of blankify (claim C5) -/

/-- Iterates `_expose_blank_picture` n times in a row. -/
def blankify_n : Nat → exposed_t → exposed_t
  | 0, e => e
  | n + 1, e => blankify_n n (_expose_blank_picture e)

lemma blankify_blankify (e : exposed_t) :
    _expose_blank_picture (_expose_blank_picture e) = _expose_blank_picture e := by
  by_cases hc : (e.online || e.picture.size == 0) = true
  · obtain ⟨h1, h2, -, -, -⟩ := blankify_fields_of_cond_true e hc
    apply blankify_eq_of_cond_false
    rw [h1, h2]
    decide
  · have h := blankify_eq_of_cond_false e (by simpa using hc)
    rw [h]
    exact h

/-- C5: calling blankify N ≥ 1 times in a row yields exactly the state of
calling it once, and on an already-blank snapshot (`online = false`, size
equal to the blank length) a single call is a no-op. -/
theorem blankify_idempotent (e : exposed_t) (n : Nat) (h : 1 ≤ n) :
    blankify_n n e = _expose_blank_picture e
    ∧ (e.online = false → e.picture.size = BLANK_JPG_SIZE →
        _expose_blank_picture e = e) := by
  constructor
  · obtain ⟨m, rfl⟩ : ∃ m, n = m + 1 := ⟨n - 1, by omega⟩
    induction m generalizing e with
    | zero => rfl
    | succ k ih =>
      show blankify_n (k + 1) (_expose_blank_picture e) = _expose_blank_picture e
      rw [ih (_expose_blank_picture e) (by omega)]
      exact blankify_blankify e
  · intro h1 h2
    apply blankify_eq_of_cond_false
    rw [h1, h2]
    decide

/-- Closed instance of C5 at the post-init snapshot with N = 3. -/
theorem blankify_idempotent_witness :
    blankify_n 3 http_server_init_exposed
      = _expose_blank_picture http_server_init_exposed :=
  (blankify_idempotent http_server_init_exposed 3 (by decide)).1

/-! ### Postcondition of adopt (claim C6) -/

/-- C6: under the precondition `stream.picture.size > 0` (and the picture
well-formedness invariants `data.length = allocated`, `size ≤ allocated`),
`_expose_new_picture` grows the exposed capacity to
`max current stream.allocated`, copies exactly `stream.picture.size` bytes
of the stream picture, copies width and height, and sets `online = true`. -/
theorem expose_new_picture_post (s : stream_t) (e : exposed_t)
    (hpos : 0 < s.picture.size)
    (hlen : s.picture.data.length = s.picture.allocated)
    (hsz : s.picture.size ≤ s.picture.allocated) :
    (_expose_new_picture s e).picture.allocated
        = max e.picture.allocated s.picture.allocated
    ∧ (_expose_new_picture s e).picture.size = s.picture.size
    ∧ (_expose_new_picture s e).picture.data.take s.picture.size
        = s.picture.data.take s.picture.size
    ∧ ((_expose_new_picture s e).picture.data.take s.picture.size).length
        = s.picture.size
    ∧ (_expose_new_picture s e).width = s.width
    ∧ (_expose_new_picture s e).height = s.height
    ∧ (_expose_new_picture s e).online = true := by
  have hdlen : s.picture.size ≤ s.picture.data.length := hlen ▸ hsz
  have htake : (_expose_new_picture s e).picture.data.take s.picture.size
      = s.picture.data.take s.picture.size := by
    simp only [_expose_new_picture]
    split
    · exact memcpy_take _ _ _ hdlen
    · exact memcpy_take _ _ _ hdlen
  refine ⟨?_, rfl, htake, ?_, rfl, rfl, rfl⟩
  · simp only [_expose_new_picture]
    split
    · next hlt => exact (Nat.max_eq_right (Nat.le_of_lt hlt)).symm
    · next hge => exact (Nat.max_eq_left (Nat.le_of_not_lt hge)).symm
  · rw [htake]
    simp [Nat.min_eq_left hdlen]

/-- Closed instance of C6 at a concrete three-byte stream picture adopted
into the post-init snapshot. -/
theorem expose_new_picture_post_witness :
    (_expose_new_picture ⟨⟨[9, 8, 7], 3, 3⟩, 640, 480, true⟩
        http_server_init_exposed).online = true :=
  (expose_new_picture_post ⟨⟨[9, 8, 7], 3, 3⟩, 640, 480, true⟩
    http_server_init_exposed (by decide) (by decide) (by decide)).2.2.2.2.2.2

/-! ### HEAD and NULL-connection dispatch (claims C7, C10) -/

/-- C7: a HEAD request on /stream is answered `200 OK` with an empty body
and creates no stream client: the registry is returned unchanged and no
per-client callbacks are installed. -/
theorem head_stream_no_client (conn_present : Bool)
    (clients : List stream_client_t) (new_id : Nat) :
    _http_callback_stream evhttp_cmd_type.EVHTTP_REQ_HEAD conn_present
        clients new_id
      = { head_reply := some (200, [])
          stream_clients := clients
          callbacks_installed := false
          request_freed := false } := rfl

/-- C10: a GET on /stream whose connection is NULL frees the request and
creates no client: the registry is unchanged and no callbacks are
installed on any bufferevent. -/
theorem stream_null_conn_freed (clients : List stream_client_t)
    (new_id : Nat) :
    _http_callback_stream evhttp_cmd_type.EVHTTP_REQ_GET false
        clients new_id
      = { head_reply := none
          stream_clients := clients
          callbacks_installed := false
          request_freed := true } := rfl

/-! ### Registry append and its cost (claim C9) -/

lemma stream_clients_append_eq (l : List stream_client_t)
    (c : stream_client_t) :
    _stream_clients_append l c = l ++ [c] := by
  induction l with
  | nil => rfl
  | cons x rest ih => simp [_stream_clients_append, ih]

lemma stream_clients_append_scan_steps_eq (l : List stream_client_t) :
    _stream_clients_append_scan_steps l = l.length - 1 := by
  induction l with
  | nil => rfl
  | cons x rest ih =>
    cases rest with
    | nil => rfl
    | cons y t =>
      show 1 + _stream_clients_append_scan_steps (y :: t)
          = (x :: y :: t).length - 1
      rw [ih]
      simp only [List.length_cons]
      omega

/-- C9 counterexample: the attach of `_http_callback_stream` is not O(1)
and does scan the existing clients — the number of `last = last->next`
steps of its append loop is not bounded by any constant over all registry
states. -/
theorem stream_clients_append_not_constant_time :
    ¬ ∃ C, ∀ l : List stream_client_t,
        _stream_clients_append_scan_steps l ≤ C := by
  rintro ⟨C, h⟩
  have h2 := h (List.replicate (C + 2) ⟨0, true⟩)
  rw [stream_clients_append_scan_steps_eq] at h2
  simp only [List.length_replicate] at h2
  omega

/-- C9 amended: attach appends the new client at the tail of the registry,
but does so by scanning the existing clients: the append loop performs
`length - 1` pointer-chasing steps, linear in the registry size. -/
theorem stream_clients_append_spec (l : List stream_client_t)
    (c : stream_client_t) :
    _stream_clients_append l c = l ++ [c]
    ∧ _stream_clients_append_scan_steps l = l.length - 1 :=
  ⟨stream_clients_append_eq l c, stream_clients_append_scan_steps_eq l⟩

/-! ### Detach removes exactly one client (claim C8) -/

lemma stream_clients_detach_eq (a b : List stream_client_t)
    (c : stream_client_t) (ha : ∀ x ∈ a, x.id ≠ c.id) :
    _stream_clients_detach (a ++ c :: b) c.id = a ++ b := by
  induction a with
  | nil => simp [_stream_clients_detach]
  | cons x rest ih =>
    have hx : x.id ≠ c.id := ha x (List.mem_cons_self x rest)
    simp only [List.cons_append, _stream_clients_detach, List.append_eq,
      if_neg hx]
    exact congrArg (x :: ·) (ih (fun y hy => ha y (List.mem_cons_of_mem x hy)))

/-- C8: for every runtime state whose registry splits as `a ++ c :: b`
around the detached client (handles unique on the left), the error
callback leaves exactly `a ++ b` — remaining clients, their relative order
and their flags unchanged — and does not modify the exposed snapshot. -/
theorem stream_error_detaches_exactly (run : http_server_runtime_t)
    (a b : List stream_client_t) (c : stream_client_t)
    (hreg : run.stream_clients = a ++ c :: b)
    (ha : ∀ x ∈ a, x.id ≠ c.id) :
    (_http_callback_stream_error run c.id).stream_clients = a ++ b
    ∧ (_http_callback_stream_error run c.id).exposed = run.exposed := by
  constructor
  · simp only [_http_callback_stream_error, hreg]
    exact stream_clients_detach_eq a b c ha
  · rfl

/-- Closed instance of C8: detaching the middle client of a three-client
registry keeps the outer two in order and the snapshot intact. -/
theorem stream_error_detaches_exactly_witness :
    (_http_callback_stream_error
        ⟨http_server_init_exposed, [⟨1, false⟩, ⟨2, true⟩, ⟨3, true⟩]⟩
        2).stream_clients
      = [⟨1, false⟩] ++ [⟨3, true⟩] :=
  (stream_error_detaches_exactly
    ⟨http_server_init_exposed, [⟨1, false⟩, ⟨2, true⟩, ⟨3, true⟩]⟩
    [⟨1, false⟩] [⟨3, true⟩] ⟨2, true⟩ rfl (by decide)).1

/-! ### The per-client MJPEG emission protocol (claim C1) -/

lemma run_stream_writes_streaming (i : Nat) (ts : List tick_input_t) :
    run_stream_writes ⟨i, false⟩ ts = (⟨i, false⟩, parts_bytes ts) := by
  induction ts with
  | nil => rfl
  | cons t ts ih =>
    simp [run_stream_writes, _http_callback_stream_write, parts_bytes, ih]

/-- C1: a client attached with `need_initial = true`, run over any
nonempty sequence of refresh ticks (each picture well formed), emits
exactly the HTTP/1.0 preamble followed by one multipart part per tick;
after the first write `need_initial` is false forever; and in each part
the number printed after `Content-Length:` equals the number of JPEG
bytes that follow the header block. -/
theorem stream_client_protocol (i : Nat) (ts : List tick_input_t)
    (hne : ts ≠ [])
    (hwf : ∀ t ∈ ts,
      t.exposed.picture.size ≤ t.exposed.picture.data.length) :
    (run_stream_writes ⟨i, true⟩ ts).2
        = str_bytes stream_preamble ++ parts_bytes ts
    ∧ (run_stream_writes ⟨i, true⟩ ts).1.need_initial = false
    ∧ ∀ t ∈ ts, ∃ jpeg : List Nat,
        jpeg.length = t.exposed.picture.size ∧
        part_bytes t
          = str_bytes (stream_part_header jpeg.length t.sec t.usec)
            ++ jpeg ++ str_bytes stream_part_tail := by
  obtain ⟨t, ts', rfl⟩ : ∃ t ts', ts = t :: ts' := by
    cases ts with
    | nil => exact absurd rfl hne
    | cons t ts' => exact ⟨t, ts', rfl⟩
  refine ⟨?_, ?_, ?_⟩
  · simp [run_stream_writes, _http_callback_stream_write,
      run_stream_writes_streaming, parts_bytes]
  · simp [run_stream_writes, _http_callback_stream_write,
      run_stream_writes_streaming]
  · intro u hu
    have hlen : (u.exposed.picture.data.take u.exposed.picture.size).length
        = u.exposed.picture.size := by
      simp [Nat.min_eq_left (hwf u hu)]
    refine ⟨u.exposed.picture.data.take u.exposed.picture.size, hlen, ?_⟩
    rw [hlen]
    rfl

/-- Closed instance of C1: one tick on the post-init blank snapshot. -/
theorem stream_client_protocol_witness :
    (run_stream_writes ⟨0, true⟩
        [⟨http_server_init_exposed, 12, 345678⟩]).1.need_initial = false :=
  (stream_client_protocol 0 [⟨http_server_init_exposed, 12, 345678⟩]
    (by decide) (by decide)).2.1

/-! ### Lock discipline of the refresh tick (claim C2) -/

/-- C2 counterexample: at a concrete producer state (updated flag set, a
one-byte frame) the refresh tick's first access to the shared stream slot
is the read of `stream->updated` at http.c line 346, performed before
`LOCK_STREAM`, so the tick's trace fails the all-accesses-under-lock
check. -/
theorem refresh_lock_claim_counterexample :
    accesses_locked
      (refresh_trace ⟨⟨[1], 1, 1⟩, 640, 480, true⟩ http_server_init_exposed)
      0 = false := by decide

/-- C2 amended: every refresh tick reads `stream.updated` once before
acquiring the lock; every other access to the shared stream slot occurs
while holding the lock, at most one frame copy is performed per tick
(under the lock), and the lock is fully released by the end of the tick
— `_expose_blank_picture` and the fanout run after the unlock. -/
theorem refresh_lock_discipline (s : stream_t) (e : exposed_t) :
    (refresh_trace s e).head? = some lock_ev.read_updated
    ∧ accesses_locked ((refresh_trace s e).tail) 0 = true
    ∧ count_copies (refresh_trace s e) ≤ 1
    ∧ final_depth (refresh_trace s e) 0 = 0 := by
  unfold refresh_trace
  split
  · split <;> decide
  · split <;> decide

/-! ### The snapshot handler's headers and body (claim C3) -/

/-- C3: the CORS header slip of the snapshot handler — evaluated at the
post-init snapshot and clock 12.345678, the reply carries no header whose
name is exactly "Access-Control-Allow-Origin" (the key used at http.c
line 197 is "Access-Control-Allow-Origin:", trailing colon included),
while the remaining claimed headers are present and the body equals the
exposed picture bytes. -/
theorem snapshot_cors_header_slip :
    ((_http_callback_snapshot http_server_init_exposed 12 345678).headers.any
        (fun kv => kv.1 == "Access-Control-Allow-Origin")) = false
    ∧ ((_http_callback_snapshot http_server_init_exposed 12 345678).headers.contains
        ("Access-Control-Allow-Origin:", "*")) = true
    ∧ ((_http_callback_snapshot http_server_init_exposed 12 345678).headers.contains
        ("Cache-Control", "no-store, no-cache, must-revalidate, pre-check=0, post-check=0, max-age=0")) = true
    ∧ ((_http_callback_snapshot http_server_init_exposed 12 345678).headers.contains
        ("Pragma", "no-cache")) = true
    ∧ ((_http_callback_snapshot http_server_init_exposed 12 345678).headers.contains
        ("Expires", "Mon, 3 Jan 2000 12:34:56 GMT")) = true
    ∧ ((_http_callback_snapshot http_server_init_exposed 12 345678).headers.contains
        ("X-Timestamp", "12.345678")) = true
    ∧ ((_http_callback_snapshot http_server_init_exposed 12 345678).headers.contains
        ("Content-Type", "image/jpeg")) = true
    ∧ (_http_callback_snapshot http_server_init_exposed 12 345678).body
        = http_server_init_exposed.picture.data.take
            http_server_init_exposed.picture.size := by
  refine ⟨?_, ?_, ?_, ?_, ?_, ?_, ?_, rfl⟩ <;> decide

end UStreamer
